import Mathlib

/-!
Shallow embedding of the deterministic single-tape Turing Machine interpreter
in `turing-machine-app.py`.

States are strings, symbols (including moves, which Python stores as the
one-character strings 'L', 'R', 'N') are characters.  The sparse tape
(`self.tape = defaultdict(lambda: self.blank_symbol)`) is an association list
from integer cell index to symbol; crucially, a `defaultdict` read at a missing
key MATERIALIZES the default into the dictionary, which the embedding
reproduces (`tapeReadD`).  The `run` loop is embedded fuel-bounded
(`runLoop`); Python exceptions (`ValueError` from `_move_head`, the
`ValueError` from unpacking the empty-tape result of `_get_tape_string` into
three variables) become an `Except TMError` error channel, and the
`output_callback` stream becomes an accumulated list of the emitted lines.
-/

namespace TMApp

/-- Exceptions the Python code can raise while running: the `ValueError` of
`_move_head` on a move direction outside L/R/N, and the `ValueError` raised
when destructuring the result of `_get_tape_string` fails (the empty-tape
branch returns a bare string instead of a 3-tuple). -/
inductive TMError where
  | invalidMove (m : Char)
  | unpackError
  deriving Repr, DecidableEq

/-- Sparse tape: association list from cell index to symbol, mirroring the
Python dict (insertion order kept, keys unique by construction). -/
abbrev TapeMap := List (Int × Char)

/-- Dictionary lookup: `self.tape.get(i)` semantics (no materialization). -/
def tapeLookup (t : TapeMap) (i : Int) : Option Char :=
  (t.find? (fun e => e.1 == i)).map Prod.snd

/-- Dictionary assignment `self.tape[i] = c`: replace the entry if the key is
present, otherwise append a new entry. -/
def tapeInsert (t : TapeMap) (i : Int) (c : Char) : TapeMap :=
  if t.any (fun e => e.1 == i) then t.map (fun e => if e.1 == i then (i, c) else e)
  else t ++ [(i, c)]

/-- `defaultdict` read `self.tape[i]`: returns the stored symbol, or the blank
symbol after inserting it at the missing key (the read materializes the
default — this is the behavior of `defaultdict(lambda: self.blank_symbol)`). -/
def tapeReadD (t : TapeMap) (blank : Char) (i : Int) : Char × TapeMap :=
  match tapeLookup t i with
  | some c => (c, t)
  | none => (blank, tapeInsert t i blank)

/-- The key set of the sparse tape (`self.tape.keys()`). -/
def tapeKeys (t : TapeMap) : List Int := t.map Prod.fst

/-- `min(self.tape.keys()) if self.tape else 0`. -/
def minKey (t : TapeMap) : Int :=
  match tapeKeys t with
  | [] => 0
  | k :: ks => ks.foldl min k

/-- `max(self.tape.keys()) if self.tape else 0`. -/
def maxKey (t : TapeMap) : Int :=
  match tapeKeys t with
  | [] => 0
  | k :: ks => ks.foldl max k

/-- The value a blank-defaulting lookup yields, without mutating the tape. -/
def tapeDefault (t : TapeMap) (blank : Char) (i : Int) : Char :=
  (tapeLookup t i).getD blank

/-- `[self.tape[i] for i in range(start, start + n)]` — each access is a
materializing `defaultdict` read, so the traversal threads the tape through. -/
def readRange (t : TapeMap) (blank : Char) (start : Int) : Nat → List Char × TapeMap
  | 0 => ([], t)
  | n + 1 =>
    let rd := tapeReadD t blank start
    let rest := readRange rd.2 blank (start + 1) n
    (rd.1 :: rest.1, rest.2)

/-- Result of `_get_tape_string`: the Python function returns a bare string on
the empty tape and a `(tape_string, head_offset, tape_start)` 3-tuple
otherwise — an inconsistent shape we keep as a sum. -/
inductive TapeRender where
  | bare (s : String)
  | full (s : String) (headOffset : Int) (tapeStart : Int)
  deriving Repr, DecidableEq

/-- `TuringMachine._get_tape_string`, paired with the tape as mutated by its
own materializing reads. -/
def getTapeString (t : TapeMap) (head : Int) (blank : Char) : TapeRender × TapeMap :=
  if t = [] then (.bare (String.singleton blank), t)
  else
    let tapeStart := min (minKey t) head
    let tapeEnd := max (maxKey t) head + 1
    let rr := readRange t blank tapeStart (tapeEnd - tapeStart).toNat
    (.full (String.mk rr.1) (head - tapeStart) tapeStart, rr.2)

/-- Python unpacking `final_tape, _, _ = self._get_tape_string()`: a 3-tuple
unpacks, a bare string unpacks only if it has exactly three characters (each
bound as a 1-character string), otherwise `ValueError`. -/
def unpackRender : TapeRender → Except TMError String
  | .full s _ _ => .ok s
  | .bare s =>
    match s.data with
    | [a, _, _] => .ok (String.singleton a)
    | _ => .error TMError.unpackError

/-- `TuringMachine._move_head`. -/
def moveHead (move : Char) (pos : Int) : Except TMError Int :=
  if move = 'R' then .ok (pos + 1)
  else if move = 'L' then .ok (pos - 1)
  else if move = 'N' then .ok pos
  else .error (TMError.invalidMove move)

/-- The immutable fields of a `TuringMachine` instance. -/
structure TM where
  states : List String
  alphabet : List Char
  delta : List ((String × Char) × (String × Char × Char))
  start_state : String
  accept_state : String
  reject_state : String
  blank_symbol : Char
  description : String
  max_steps : Nat
  deriving Repr, DecidableEq

/-- `TuringMachine.__init__`: stores the given fields verbatim and sets
`max_steps = 1000`; the constructor body performs no validation of any kind. -/
def mkTuringMachine (states : List String) (alphabet : List Char)
    (transition_function : List ((String × Char) × (String × Char × Char)))
    (start_state accept_state reject_state : String)
    (blank_symbol : Char) (description : String) : TM :=
  { states := states, alphabet := alphabet, delta := transition_function,
    start_state := start_state, accept_state := accept_state,
    reject_state := reject_state, blank_symbol := blank_symbol,
    description := description, max_steps := 1000 }

/-- Transition lookup `self.delta[(state, symbol)]` / the `in` test. -/
def deltaLookup (d : List ((String × Char) × (String × Char × Char)))
    (q : String) (c : Char) : Option (String × Char × Char) :=
  (d.find? (fun e => e.1.1 == q && e.1.2 == c)).map Prod.snd

/-- The mutable per-run state of a `TuringMachine` instance. -/
structure ExecState where
  tape : TapeMap
  head_position : Int
  current_state : String
  deriving Repr, DecidableEq

/-- `TuringMachine._initialize_tape`: clear the tape, write `input[i]` to cell
`i`, reset the head to 0 and the current state to the start state. -/
def initState (tm : TM) (input : String) : ExecState :=
  { tape := (input.data.enum).map (fun p => ((p.1 : Int), p.2)),
    head_position := 0, current_state := tm.start_state }

/-- `s.ljust(n)` / Python `f"{s:<n}"` left-justified padding. -/
def ljust (s : String) (n : Nat) : String :=
  s ++ String.mk (List.replicate (n - s.length) ' ')

def headerLine (input desc : String) : String :=
  "--- Starting TM Simulation on Input: '" ++ input ++ "' (" ++ desc ++ ") ---\n"

def haltLine (maxSteps : Nat) : String :=
  "\n--- Simulation Halted (Max Steps: " ++ toString maxSteps ++ " reached) ---\n"

def missingLine (sc : Nat) (state : String) (sym : Char) : String :=
  "Step " ++ toString sc ++ ": No transition found for ('" ++ state ++ "', '" ++
    String.singleton sym ++ "'). Rejecting.\n"

def stepLine (sc : Nat) (state : String) (tapeString : String) : String :=
  "Step " ++ toString sc ++ ": State: " ++ ljust state 6 ++ " | Tape: " ++ tapeString ++ "\n"

def headLine (off : Int) : String :=
  ljust "" 21 ++ " | Head: " ++ String.mk (List.replicate off.toNat ' ') ++ "^\n"

def finishLine (sc : Nat) : String :=
  "\n--- Simulation Finished in " ++ toString sc ++ " steps ---\n"

def finalStateLine (s : String) : String := "Final State: " ++ s ++ "\n"

def finalTapeLine (s : String) : String := "Final Tape: " ++ s ++ "\n"

/-- What a completed run yields: the verdict string `run` returns, the
`final_tape` rendered during finalization (absent on the max-steps early
return, which skips the final render), the lines emitted through
`output_callback`, and the final mutable state. -/
structure RunResult where
  verdict : String
  finalTape : Option String
  trace : List String
  final : ExecState
  deriving Repr, DecidableEq

/-- The finalization block of `TuringMachine.run` (lines after the loop):
destructure `_get_tape_string()` into three (raising on the empty-tape bare
string), emit the three final lines, and pick the verdict string. -/
def finalize (tm : TM) (sc : Nat) (st : ExecState) (tr : List String) :
    Except TMError RunResult :=
  let gr := getTapeString st.tape st.head_position tm.blank_symbol
  match unpackRender gr.1 with
  | .error e => .error e
  | .ok ft =>
    .ok { verdict :=
            if st.current_state = tm.accept_state then "Accepted"
            else if st.current_state = tm.reject_state then "Rejected"
            else "Unknown Halt State",
          finalTape := some ft,
          trace := tr ++ [finishLine sc, finalStateLine st.current_state,
                          finalTapeLine ft],
          final := { st with tape := gr.2 } }

/-- The `while` loop of `TuringMachine.run`, fuel-bounded.  `none` means the
fuel ran out, which never happens from `fuel = max_steps + 1` (the loop body
executes at most `max_steps` transitions before the ceiling check fires).
Each iteration follows the source order: halting check, step-ceiling check,
materializing symbol read, transition lookup (missing ⇒ trace line, jump to
the reject state, leave the loop with no step-count increment, tape write or
head move), trace emission, tape write, head move (raising on an invalid
direction), state update, step-count increment. -/
def runLoop (tm : TM) : Nat → Nat → ExecState → List String →
    Option (Except TMError RunResult)
  | 0, _, _, _ => none
  | fuel + 1, sc, st, tr =>
    if st.current_state = tm.accept_state ∨ st.current_state = tm.reject_state then
      some (finalize tm sc st tr)
    else if tm.max_steps ≤ sc then
      some (Except.ok
        { verdict := "Halted (Max Steps) - State: " ++ st.current_state,
          finalTape := none,
          trace := tr ++ [haltLine tm.max_steps],
          final := st })
    else
      match deltaLookup tm.delta st.current_state
          (tapeReadD st.tape tm.blank_symbol st.head_position).1 with
      | none =>
        some (finalize tm sc
          { st with tape := (tapeReadD st.tape tm.blank_symbol st.head_position).2,
                    current_state := tm.reject_state }
          (tr ++ [missingLine sc st.current_state
                    (tapeReadD st.tape tm.blank_symbol st.head_position).1]))
      | some t3 =>
        match (getTapeString (tapeReadD st.tape tm.blank_symbol st.head_position).2
            st.head_position tm.blank_symbol).1 with
        | .bare _ => some (Except.error TMError.unpackError)
        | .full ts off _ =>
          match moveHead t3.2.2 st.head_position with
          | .error e => some (Except.error e)
          | .ok nh =>
            runLoop tm fuel (sc + 1)
              { tape := tapeInsert
                  (getTapeString (tapeReadD st.tape tm.blank_symbol st.head_position).2
                    st.head_position tm.blank_symbol).2
                  st.head_position t3.2.1,
                head_position := nh, current_state := t3.1 }
              (tr ++ [stepLine sc st.current_state ts, headLine off])

/-- `TuringMachine.run`: initialize the tape, emit the header line, drive the
loop.  Fuel `max_steps + 1` always suffices (proved below). -/
def run (tm : TM) (input : String) : Option (Except TMError RunResult) :=
  runLoop tm (tm.max_steps + 1) 0 (initState tm input)
    [headerLine input tm.description]

/-- Example 2 of the source: states of the a^n b^n acceptor. -/
def Q2 : List String := ["q0", "q1", "q2", "q3", "q_accept", "q_reject"]

def Sigma2 : List Char := ['a', 'b', 'X', 'Y', 'B']

def Delta2 : List ((String × Char) × (String × Char × Char)) :=
  [(("q0", 'a'), ("q1", 'X', 'R')),
   (("q0", 'Y'), ("q3", 'Y', 'R')),
   (("q0", 'B'), ("q_reject", 'B', 'N')),
   (("q0", 'X'), ("q0", 'X', 'R')),
   (("q1", 'a'), ("q1", 'a', 'R')),
   (("q1", 'Y'), ("q1", 'Y', 'R')),
   (("q1", 'b'), ("q2", 'Y', 'L')),
   (("q1", 'X'), ("q1", 'X', 'R')),
   (("q1", 'B'), ("q_reject", 'B', 'N')),
   (("q2", 'a'), ("q2", 'a', 'L')),
   (("q2", 'Y'), ("q2", 'Y', 'L')),
   (("q2", 'X'), ("q0", 'X', 'R')),
   (("q2", 'B'), ("q_reject", 'B', 'N')),
   (("q3", 'Y'), ("q3", 'Y', 'R')),
   (("q3", 'B'), ("q_accept", 'B', 'N')),
   (("q3", 'a'), ("q_reject", 'a', 'N')),
   (("q3", 'b'), ("q_reject", 'b', 'N'))]

def tm_anbn : TM :=
  mkTuringMachine Q2 Sigma2 Delta2 "q0" "q_accept" "q_reject" 'B'
    "Accepts L={a^n b^n}"

/-- Example 3 of the source: states of the binary incrementer. -/
def Q3 : List String := ["q0", "q1", "q_carry", "q_accept", "q_reject"]

def Sigma3 : List Char := ['0', '1', 'B']

def Delta3 : List ((String × Char) × (String × Char × Char)) :=
  [(("q0", '0'), ("q0", '0', 'R')),
   (("q0", '1'), ("q0", '1', 'R')),
   (("q0", 'B'), ("q_carry", 'B', 'L')),
   (("q_carry", '1'), ("q_carry", '0', 'L')),
   (("q_carry", '0'), ("q_accept", '1', 'N')),
   (("q_carry", 'B'), ("q_accept", '1', 'N'))]

def tm_bin_increment : TM :=
  mkTuringMachine Q3 Sigma3 Delta3 "q0" "q_accept" "q_reject" 'B'
    "Binary Incrementer (+1)"

/-- A definition whose accept and reject states coincide — the constructor
accepts it without complaint, exercising the absence of validation. -/
def tmDegenerate : TM :=
  mkTuringMachine ["s", "r"] ['B'] [] "s" "r" "r" 'B' "degenerate"

/-- A well-formed definition (distinct accept/reject states) with an empty
transition mapping, so every run hits a missing transition at once. -/
def tmNoDelta : TM :=
  mkTuringMachine ["s", "acc", "rej"] ['B'] [] "s" "acc" "rej" 'B' "no transitions"

/-- A definition whose single transition carries the move direction 'Q',
outside L/R/N — the constructor accepts it without complaint. -/
def tmBadMove : TM :=
  mkTuringMachine ["s", "acc", "rej"] ['B'] [(("s", 'B'), ("acc", 'B', 'Q'))]
    "s" "acc" "rej" 'B' "badmove"

/-- A definition whose start state is its accept state. -/
def tmStartAccept : TM :=
  mkTuringMachine ["s", "r"] ['B'] [] "s" "s" "r" 'B' "start is accept"

/-! ## Helper lemmas -/

theorem tapeInsert_of_lookup_none {t : TapeMap} {i : Int} (c : Char)
    (h : tapeLookup t i = none) : tapeInsert t i c = t ++ [(i, c)] := by
  have hf : t.find? (fun e => e.1 == i) = none := by
    unfold tapeLookup at h
    exact Option.map_eq_none'.mp h
  have ha : t.any (fun e => e.1 == i) = false := by
    rw [Bool.eq_false_iff]
    intro hany
    obtain ⟨e, he, hp⟩ := List.any_eq_true.mp hany
    have := List.find?_eq_none.mp hf e he
    exact this hp
  unfold tapeInsert
  rw [ha]
  simp

theorem tapeInsert_ne_nil (t : TapeMap) (i : Int) (c : Char) :
    tapeInsert t i c ≠ [] := by
  unfold tapeInsert
  split
  · rename_i hany
    intro hmap
    rw [List.map_eq_nil_iff] at hmap
    subst hmap
    simp at hany
  · simp

theorem tapeReadD_snd_ne_nil (t : TapeMap) (b : Char) (i : Int) :
    (tapeReadD t b i).2 ≠ [] := by
  unfold tapeReadD
  cases h : tapeLookup t i with
  | none => exact tapeInsert_ne_nil t i b
  | some c =>
    intro ht
    subst ht
    simp [tapeLookup] at h

theorem tapeDefault_tapeReadD (t : TapeMap) (b : Char) (i j : Int) :
    tapeDefault (tapeReadD t b i).2 b j = tapeDefault t b j := by
  unfold tapeReadD
  cases h : tapeLookup t i with
  | some c => rfl
  | none =>
    rw [tapeInsert_of_lookup_none b h]
    unfold tapeDefault tapeLookup
    rw [List.find?_append]
    by_cases hij : j = i
    · subst hij
      have hf : t.find? (fun e => e.1 == j) = none :=
        Option.map_eq_none'.mp h
      rw [hf]
      simp [tapeLookup] at h
      simp [h]
    · cases hf : t.find? (fun e => e.1 == j) with
      | some e => simp [hf]
      | none =>
        have : ((j : Int) == i) = false ∨ ((i : Int) == j) = false := by
          simp [hij]
        simp [hf, Ne.symm hij]

theorem readRange_length (b : Char) :
    ∀ (n : Nat) (t : TapeMap) (s : Int), (readRange t b s n).1.length = n := by
  intro n
  induction n with
  | zero => intro t s; rfl
  | succ m ih =>
    intro t s
    simp only [readRange, List.length_cons]
    rw [ih]

theorem readRange_getD (b d : Char) :
    ∀ (n : Nat) (t : TapeMap) (s : Int) (j : Nat), j < n →
      (readRange t b s n).1.getD j d = tapeDefault t b (s + j) := by
  intro n
  induction n with
  | zero => intro t s j hj; omega
  | succ m ih =>
    intro t s j hj
    cases j with
    | zero =>
      simp only [readRange, List.getD_cons_zero]
      unfold tapeReadD tapeDefault
      cases h : tapeLookup t s with
      | some c => simp [h]
      | none => simp [h]
    | succ k =>
      simp only [readRange, List.getD_cons_succ]
      rw [ih _ _ k (by omega), tapeDefault_tapeReadD]
      congr 1
      push_cast
      ring

theorem runLoop_isSome (tm : TM) :
    ∀ (fuel sc : Nat) (st : ExecState) (tr : List String),
      tm.max_steps ≤ sc + fuel → (runLoop tm (fuel + 1) sc st tr).isSome := by
  intro fuel
  induction fuel with
  | zero =>
    intro sc st tr h
    rw [runLoop]
    split
    · simp
    · split
      · simp
      · rename_i hle
        omega
  | succ m ih =>
    intro sc st tr h
    rw [runLoop]
    split
    · simp
    · split
      · simp
      · split
        · simp
        · split
          · simp
          · split
            · simp
            · exact ih (sc + 1) _ _ (by omega)

theorem finalize_verdict (tm : TM) (sc : Nat) (st : ExecState) (tr : List String)
    (h : st.tape ≠ []) :
    Except.map RunResult.verdict (finalize tm sc st tr) =
      Except.ok (if st.current_state = tm.accept_state then "Accepted"
                 else if st.current_state = tm.reject_state then "Rejected"
                 else "Unknown Halt State") := by
  unfold finalize
  simp only [getTapeString, if_neg h]
  simp [unpackRender, Except.map]

/-! ## Claim theorems -/

/-- Claim C1, counterexample: the claim says a Machine Definition whose
accept state equals its reject state fails with a `DefinitionError` at
construction and no definition value is produced.  The constructor of the
source performs no validation at all: the call with `accept_state = "r"` and
`reject_state = "r"` succeeds, producing `tmDegenerate`, a definition value
whose accept and reject states coincide. -/
theorem C1_counterexample :
    tmDegenerate = mkTuringMachine ["s", "r"] ['B'] [] "s" "r" "r" 'B' "degenerate" ∧
    tmDegenerate.accept_state = tmDegenerate.reject_state :=
  ⟨rfl, rfl⟩

/-- Claim C1, amended: `TuringMachine.__init__` performs no validation
whatsoever — for every combination of fields, including one where the accept
state equals the reject state or where start/accept/reject are not members of
`states`, construction succeeds and yields the definition value holding
exactly the given fields (with `max_steps = 1000`); no `DefinitionError`
exists in the code. -/
theorem C1_construction_never_fails (qs : List String) (alpha : List Char)
    (d : List ((String × Char) × (String × Char × Char)))
    (s a r : String) (b : Char) (desc : String) :
    mkTuringMachine qs alpha d s a r b desc =
      { states := qs, alphabet := alpha, delta := d, start_state := s,
        accept_state := a, reject_state := r, blank_symbol := b,
        description := desc, max_steps := 1000 } :=
  rfl

/-- Claim C2, counterexample: the claim says that for EVERY machine
definition a run that encounters a missing transition never returns the
Accepted verdict.  Because construction does not rule out
`accept_state = reject_state` (see C1), the degenerate machine refutes this:
on the empty input its run hits the missing transition `('s', 'B')` (the
trace line below names it), jumps to the reject state "r" — which IS the
accept state — and `run` returns "Accepted". -/
theorem C2_counterexample :
    run tmDegenerate "" =
      some (Except.ok
        { verdict := "Accepted",
          finalTape := some "B",
          trace := [headerLine "" "degenerate", missingLine 0 "s" 'B',
                    finishLine 0, finalStateLine "r", finalTapeLine "B"],
          final := { tape := [(0, 'B')], head_position := 0, current_state := "r" } }) :=
  rfl

/-- Claim C2, amended: whenever the loop reads a (state, symbol) pair absent
from the transition mapping, it appends one trace line naming the missing
transition, forces the current state to the reject state, and leaves the loop
with the same step count (no increment), the same head position, and a tape
changed only by the defaultdict materialization of the read (no write of a
transition symbol) — the whole remainder of the run is exactly `finalize`
applied to that rejected state.  PROVIDED the definition's accept and reject
states are distinct (which construction does not enforce), the verdict of
such a run is "Rejected", never "Accepted". -/
theorem C2_missing_transition (tm : TM) (fuel sc : Nat) (st : ExecState)
    (tr : List String)
    (h1 : st.current_state ≠ tm.accept_state)
    (h2 : st.current_state ≠ tm.reject_state)
    (h3 : sc < tm.max_steps)
    (h4 : deltaLookup tm.delta st.current_state
            (tapeReadD st.tape tm.blank_symbol st.head_position).1 = none)
    (h5 : tm.accept_state ≠ tm.reject_state) :
    runLoop tm (fuel + 1) sc st tr =
      some (finalize tm sc
        { st with tape := (tapeReadD st.tape tm.blank_symbol st.head_position).2,
                  current_state := tm.reject_state }
        (tr ++ [missingLine sc st.current_state
                  (tapeReadD st.tape tm.blank_symbol st.head_position).1])) ∧
    Except.map RunResult.verdict
      (finalize tm sc
        { st with tape := (tapeReadD st.tape tm.blank_symbol st.head_position).2,
                  current_state := tm.reject_state }
        (tr ++ [missingLine sc st.current_state
                  (tapeReadD st.tape tm.blank_symbol st.head_position).1])) =
      Except.ok "Rejected" := by
  constructor
  · rw [runLoop, if_neg (not_or.mpr ⟨h1, h2⟩), if_neg (not_le.mpr h3), h4]
  · rw [finalize_verdict _ _ _ _ (tapeReadD_snd_ne_nil _ _ _)]
    simp [Ne.symm h5]

/-- Claim C2 witness: the no-transition machine `tmNoDelta` (distinct accept
and reject states) run on the empty input hits the missing transition at
step 0 and finalizes as Rejected. -/
theorem C2_missing_transition_witness :
    runLoop tmNoDelta (0 + 1) 0 (initState tmNoDelta "") [] =
      some (finalize tmNoDelta 0
        { initState tmNoDelta "" with
            tape := (tapeReadD (initState tmNoDelta "").tape tmNoDelta.blank_symbol
                      (initState tmNoDelta "").head_position).2,
            current_state := tmNoDelta.reject_state }
        ([] ++ [missingLine 0 (initState tmNoDelta "").current_state
                  (tapeReadD (initState tmNoDelta "").tape tmNoDelta.blank_symbol
                    (initState tmNoDelta "").head_position).1])) ∧
    Except.map RunResult.verdict
      (finalize tmNoDelta 0
        { initState tmNoDelta "" with
            tape := (tapeReadD (initState tmNoDelta "").tape tmNoDelta.blank_symbol
                      (initState tmNoDelta "").head_position).2,
            current_state := tmNoDelta.reject_state }
        ([] ++ [missingLine 0 (initState tmNoDelta "").current_state
                  (tapeReadD (initState tmNoDelta "").tape tmNoDelta.blank_symbol
                    (initState tmNoDelta "").head_position).1])) =
      Except.ok "Rejected" :=
  C2_missing_transition tmNoDelta 0 0 (initState tmNoDelta "") []
    (by decide) (by decide) (by decide) (by decide) (by decide)

/-- Claim C3: `run` always terminates — with fuel `max_steps + 1` the loop
never exhausts its fuel, since each executed transition consumes one unit and
the ceiling check fires once the step count reaches `max_steps` (so at most
`max_steps` transitions execute); the ceiling defaults to 1000 for every
constructed machine; and whenever the ceiling check fires while the current
state is neither the accept nor the reject state, the loop returns the
"Halted (Max Steps)" verdict carrying the current state — a string distinct
from both "Accepted" and "Rejected". -/
theorem C3_termination_and_step_ceiling :
    (∀ (tm : TM) (input : String), (run tm input).isSome) ∧
    (∀ (qs : List String) (alpha : List Char)
       (d : List ((String × Char) × (String × Char × Char)))
       (s a r : String) (b : Char) (desc : String),
       (mkTuringMachine qs alpha d s a r b desc).max_steps = 1000) ∧
    (∀ (tm : TM) (fuel sc : Nat) (st : ExecState) (tr : List String),
       st.current_state ≠ tm.accept_state → st.current_state ≠ tm.reject_state →
       tm.max_steps ≤ sc →
       runLoop tm (fuel + 1) sc st tr =
         some (Except.ok
           { verdict := "Halted (Max Steps) - State: " ++ st.current_state,
             finalTape := none,
             trace := tr ++ [haltLine tm.max_steps],
             final := st }) ∧
       "Halted (Max Steps) - State: " ++ st.current_state ≠ "Accepted" ∧
       "Halted (Max Steps) - State: " ++ st.current_state ≠ "Rejected") := by
  refine ⟨?_, ?_, ?_⟩
  · intro tm input
    exact runLoop_isSome tm tm.max_steps 0 _ _ (by omega)
  · intro qs alpha d s a r b desc
    rfl
  · intro tm fuel sc st tr h1 h2 h3
    refine ⟨?_, ?_, ?_⟩
    · rw [runLoop, if_neg (not_or.mpr ⟨h1, h2⟩), if_pos h3]
    · intro heq
      have hl := congrArg String.length heq
      rw [String.length_append] at hl
      have h28 : ("Halted (Max Steps) - State: " : String).length = 28 := by decide
      have h8 : ("Accepted" : String).length = 8 := by decide
      omega
    · intro heq
      have hl := congrArg String.length heq
      rw [String.length_append] at hl
      have h28 : ("Halted (Max Steps) - State: " : String).length = 28 := by decide
      have h8 : ("Rejected" : String).length = 8 := by decide
      omega

/-- Claim C3 witness: the ceiling branch at a concrete instance — the a^n b^n
machine's loop entered with step count already at the ceiling 1000 in the
non-halting state "q0" returns the Halted verdict immediately. -/
theorem C3_termination_witness :
    runLoop tm_anbn (0 + 1) 1000 ⟨[], 0, "q0"⟩ [] =
      some (Except.ok
        { verdict := "Halted (Max Steps) - State: " ++ "q0",
          finalTape := none,
          trace := [] ++ [haltLine tm_anbn.max_steps],
          final := ⟨[], 0, "q0"⟩ }) ∧
    "Halted (Max Steps) - State: " ++ "q0" ≠ "Accepted" ∧
    "Halted (Max Steps) - State: " ++ "q0" ≠ "Rejected" :=
  C3_termination_and_step_ceiling.2.2 tm_anbn 0 1000 ⟨[], 0, "q0"⟩ []
    (by decide) (by decide) (by decide)

/-- Claim C4, counterexample: the claim says the Binary Incrementer on the
empty input yields verdict Accepted and final rendered tape exactly "1".
The verdict is Accepted, but the final rendered tape is "1B": the
defaultdict read of cell 0 materialized a blank there, and the final window
spans cells -1..0. -/
theorem C4_counterexample :
    ¬ ((run tm_bin_increment "").map
        (Except.map (fun r => (r.verdict, r.finalTape))) =
      some (Except.ok ("Accepted", some "1"))) := by
  intro h
  have h' : (some (Except.ok ("Accepted", some "1B")) :
        Option (Except TMError (String × Option String))) =
      some (Except.ok ("Accepted", some "1")) := by
    rw [← h]
    rfl
  simp at h'

/-- Claim C4, amended: the Binary Incrementer on the empty input returns the
Accepted verdict, and the final rendered tape string is "1B" — the written
result digit "1" at cell -1 followed by the blank the defaultdict
materialized at cell 0 when the first symbol was read. -/
theorem C4_empty_input :
    (run tm_bin_increment "").map
        (Except.map (fun r => (r.verdict, r.finalTape))) =
      some (Except.ok ("Accepted", some "1B")) :=
  rfl

/-- Claim C5, counterexample: the claim says the Binary Incrementer on input
"101" yields verdict Accepted and final rendered tape exactly "110".  The
verdict is Accepted, but the final rendered tape is "110B": the scan past the
right end of the input materialized a blank at cell 3, which stays inside the
rendered window. -/
theorem C5_counterexample :
    ¬ ((run tm_bin_increment "101").map
        (Except.map (fun r => (r.verdict, r.finalTape))) =
      some (Except.ok ("Accepted", some "110"))) := by
  intro h
  have h' : (some (Except.ok ("Accepted", some "110B")) :
        Option (Except TMError (String × Option String))) =
      some (Except.ok ("Accepted", some "110")) := by
    rw [← h]
    rfl
  simp at h'

/-- Claim C5, amended: the Binary Incrementer on input "101" returns the
Accepted verdict, and the final rendered tape string is "110B" — the
incremented number followed by the blank materialized at cell 3 by the
defaultdict read during the rightward scan. -/
theorem C5_input_101 :
    (run tm_bin_increment "101").map
        (Except.map (fun r => (r.verdict, r.finalTape))) =
      some (Except.ok ("Accepted", some "110B")) :=
  rfl

/-- Claim C6: the a^n b^n machine run on "aabb" returns the Accepted verdict
and run on "aab" returns the Rejected verdict. -/
theorem C6_anbn_verdicts :
    (run tm_anbn "aabb").map (Except.map RunResult.verdict) =
      some (Except.ok "Accepted") ∧
    (run tm_anbn "aab").map (Except.map RunResult.verdict) =
      some (Except.ok "Rejected") :=
  ⟨rfl, rfl⟩

/-- Claim C7, counterexample: the claim says a read never inserts an entry
into the sparse tape mapping.  The very first read of a real run refutes it:
in the initial state of `run tm_bin_increment ""` the tape mapping is empty,
and the defaultdict read at the head position inserts key 0, so the key set
after the read differs from the key set before it. -/
theorem C7_counterexample :
    tapeKeys (tapeReadD (initState tm_bin_increment "").tape
        tm_bin_increment.blank_symbol
        (initState tm_bin_increment "").head_position).2 ≠
      tapeKeys (initState tm_bin_increment "").tape := by
  decide

/-- Claim C7, amended: the tape is a `defaultdict`, so a read at a key
already present leaves the mapping unchanged and returns the stored symbol,
but a read at an absent key INSERTS the blank symbol there: the key list
after such a read is the old key list extended by the read position.  (Both
the per-step symbol read and the cell reads of tape rendering go through this
same materializing access.)  Only the write in step (e) can change a stored
symbol, but reads do add blank entries. -/
theorem C7_reads_materialize (t : TapeMap) (b : Char) (i : Int) :
    (∀ c, tapeLookup t i = some c → tapeReadD t b i = (c, t)) ∧
    (tapeLookup t i = none →
      tapeReadD t b i = (b, t ++ [(i, b)]) ∧
      tapeKeys (tapeReadD t b i).2 = tapeKeys t ++ [i]) := by
  constructor
  · intro c hc
    unfold tapeReadD
    rw [hc]
  · intro hn
    have hins := tapeInsert_of_lookup_none b hn
    constructor
    · unfold tapeReadD
      rw [hn, hins]
    · unfold tapeReadD
      rw [hn]
      simp only [hins, tapeKeys, List.map_append]
      rfl

/-- Claim C7 witness: a read at the present key 0 of a one-cell tape changes
nothing, and a read at the absent key 1 appends a blank entry there. -/
theorem C7_reads_materialize_witness :
    tapeReadD [((0 : Int), '1')] 'B' 0 = ('1', [((0 : Int), '1')]) ∧
    tapeReadD [((0 : Int), '1')] 'B' 1 = ('B', [((0 : Int), '1'), (1, 'B')]) ∧
    tapeKeys (tapeReadD [((0 : Int), '1')] 'B' 1).2 = [0, 1] :=
  ⟨(C7_reads_materialize [((0 : Int), '1')] 'B' 0).1 '1' (by decide),
   ((C7_reads_materialize [((0 : Int), '1')] 'B' 1).2 (by decide)).1,
   by
    have h := ((C7_reads_materialize [((0 : Int), '1')] 'B' 1).2 (by decide)).2
    rw [h]
    rfl⟩

/-- Claim C8: `_get_tape_string` renders exactly the claimed window.  When
the tape mapping has entries, the result is the 3-tuple of a string spanning
the cells from `min(lowest mapped index, head_position)` to
`max(highest mapped index, head_position)` inclusive — cell `j` of the string
is the mapped symbol, or the blank for unmapped cells — together with the
head-marker offset `head_position - window start` (under which the caret is
printed) and the window start.  When the tape mapping is empty, the rendered
string is the single blank symbol (the window is just the head cell, so the
marker trivially sits at the head position). -/
theorem C8_tape_rendering_window (t : TapeMap) (head : Int) (b : Char) :
    (t = [] → (getTapeString t head b).1 = TapeRender.bare (String.singleton b)) ∧
    (t ≠ [] → ∃ s : String,
      (getTapeString t head b).1 =
        TapeRender.full s (head - min (minKey t) head) (min (minKey t) head) ∧
      s.length = (max (maxKey t) head + 1 - min (minKey t) head).toNat ∧
      ∀ j : Nat, j < s.length →
        s.data.getD j b = tapeDefault t b (min (minKey t) head + j)) := by
  constructor
  · intro h
    simp [getTapeString, h]
  · intro h
    refine ⟨String.mk (readRange t b (min (minKey t) head)
      (max (maxKey t) head + 1 - min (minKey t) head).toNat).1, ?_, ?_, ?_⟩
    · simp [getTapeString, h]
    · rw [String.length_mk]
      exact readRange_length b _ _ _
    · intro j hj
      rw [String.length_mk, readRange_length] at hj
      show (readRange t b (min (minKey t) head)
        (max (maxKey t) head + 1 - min (minKey t) head).toNat).1.getD j b = _
      rw [readRange_getD b b _ _ _ j hj]

/-- Claim C8 witness: the one-cell tape holding '1' at index 0 with the head
at cell 2 renders the window 0..2 ("1BB"), marker offset 2, window start 0. -/
theorem C8_tape_rendering_witness :
    ([((0 : Int), '1')] : TapeMap) ≠ [] ∧
    (∃ s : String,
      (getTapeString [((0 : Int), '1')] 2 'B').1 =
        TapeRender.full s (2 - min (minKey [((0 : Int), '1')]) 2)
          (min (minKey [((0 : Int), '1')]) 2) ∧
      s.length = (max (maxKey [((0 : Int), '1')]) 2 + 1 -
        min (minKey [((0 : Int), '1')]) 2).toNat ∧
      ∀ j : Nat, j < s.length →
        s.data.getD j 'B' = tapeDefault [((0 : Int), '1')] 'B'
          (min (minKey [((0 : Int), '1')]) 2 + j)) :=
  ⟨by decide, (C8_tape_rendering_window [((0 : Int), '1')] 2 'B').2 (by decide)⟩

/-- Claim C9, counterexample: the claim says a transition with a move
direction outside L/R/N is rejected at construction, so an InvalidMove fault
never arises at runtime.  `tmBadMove` carries move direction 'Q' and was
constructed without any error (see its definition); running it raises the
InvalidMove `ValueError` at runtime when the transition is applied. -/
theorem C9_counterexample :
    tmBadMove = mkTuringMachine ["s", "acc", "rej"] ['B']
      [(("s", 'B'), ("acc", 'B', 'Q'))] "s" "acc" "rej" 'B' "badmove" ∧
    run tmBadMove "" = some (Except.error (TMError.invalidMove 'Q')) :=
  ⟨rfl, rfl⟩

/-- Claim C9, amended: move directions are not validated at construction
(the constructor checks nothing, see C1); instead `_move_head` raises the
InvalidMove error at runtime for any direction other than 'R', 'L', 'N',
and performs the documented head movement for those three. -/
theorem C9_invalid_move_is_runtime (m : Char) (pos : Int) :
    (m ≠ 'R' → m ≠ 'L' → m ≠ 'N' →
      moveHead m pos = Except.error (TMError.invalidMove m)) ∧
    moveHead 'R' pos = Except.ok (pos + 1) ∧
    moveHead 'L' pos = Except.ok (pos - 1) ∧
    moveHead 'N' pos = Except.ok pos := by
  refine ⟨fun h1 h2 h3 => ?_, rfl, rfl, rfl⟩
  unfold moveHead
  rw [if_neg h1, if_neg h2, if_neg h3]

/-- Claim C9 witness: move direction 'Q' at head position 5 raises
InvalidMove; the three legal directions move the head as documented. -/
theorem C9_invalid_move_witness :
    moveHead 'Q' 5 = Except.error (TMError.invalidMove 'Q') ∧
    moveHead 'R' 5 = Except.ok 6 :=
  ⟨(C9_invalid_move_is_runtime 'Q' 5).1 (by decide) (by decide) (by decide),
   (C9_invalid_move_is_runtime 'Q' 5).2.1⟩

/-- Claim C10: for every machine definition whose start state equals its
accept state or its reject state, `run` on the empty input raises an
exception during finalization instead of returning a verdict: the loop is
skipped, the tape is still empty, `_get_tape_string` returns the bare blank
symbol (a 1-character string), and destructuring it into the expected
(string, offset, start) triple fails. -/
theorem C10_degenerate_start_empty_input (tm : TM)
    (h : tm.start_state = tm.accept_state ∨ tm.start_state = tm.reject_state) :
    run tm "" = some (Except.error TMError.unpackError) := by
  unfold run
  rw [runLoop]
  have hcur : (initState tm "").current_state = tm.start_state := rfl
  rw [if_pos (by rw [hcur]; exact h)]
  have htape : (initState tm "").tape = [] := rfl
  unfold finalize
  rw [htape]
  simp [getTapeString, unpackRender, String.singleton]

/-- Claim C10 witness: the concrete machine whose start state is its accept
state, run on the empty input, yields the unpack `ValueError` and no
verdict. -/
theorem C10_degenerate_start_witness :
    (tmStartAccept.start_state = tmStartAccept.accept_state ∨
      tmStartAccept.start_state = tmStartAccept.reject_state) ∧
    run tmStartAccept "" = some (Except.error TMError.unpackError) :=
  ⟨Or.inl rfl, C10_degenerate_start_empty_input tmStartAccept (Or.inl rfl)⟩

end TMApp
